import Mathlib

/-!
Verification of `rclcpp::ParameterEventsSubscriber`
(src/rclcpp/include/rclcpp/parameter_events_subscriber.hpp).

The repository ships only the header: the class declaration, the handle
structs, the registry containers and the inline constructor.  The member
function bodies (`event_callback`, `resolve_path`, the add/remove
operations and the two `get_parameter_from_event` overloads) live in a
`.cpp` file that is not part of the repository, so those operations are
modelled from the specification; every such definition carries a doc
comment starting `Modelled from the spec:`.  Definitions that embed code
actually present in the header (the registry key type, the constructor)
are translated directly from it.
-/

namespace Rclcpp

/-- A parameter value as carried by `rcl_interfaces::msg::Parameter`.
`notSet` is the `PARAMETER_NOT_SET` sentinel; the other constructors model
the typed payloads (a double literal is modelled as an exact fraction,
e.g. 3.5 as `doubleVal 7 2`). -/
inductive ParameterValue where
  | notSet
  | boolVal (b : Bool)
  | intVal (i : Int)
  | doubleVal (num : Int) (den : Nat)
  | strVal (s : String)
deriving DecidableEq

/-- One named parameter record, as in `rcl_interfaces::msg::Parameter`
and `rclcpp::Parameter`. -/
structure Parameter where
  name : String
  value : ParameterValue
deriving DecidableEq

/-- One `rcl_interfaces::msg::ParameterEvent`: the emitting node's
fully-qualified name and the three ordered record lists. -/
structure ParameterEvent where
  node : String
  new_parameters : List Parameter
  changed_parameters : List Parameter
  deleted_parameters : List Parameter
deriving DecidableEq

/-- First record in the list whose name matches, scanning in order. -/
def findByName (parameter_name : String) : List Parameter → Option Parameter
  | [] => none
  | p :: rest => if p.name = parameter_name then some p else findByName parameter_name rest

/-- Whether a string begins with the namespace separator character. -/
def beginsWithSlash (s : String) : Bool :=
  match s.data with
  | [] => false
  | c :: _ => c == '/'

/-- Modelled from the spec: the body of
`ParameterEventsSubscriber::resolve_path` is not in the repository (only
its declaration at header line 194).  Spec §4.1: an empty name resolves to
the self (fully-qualified node) name; a name beginning with the namespace
separator is already canonical and returned unchanged; otherwise the name
is prefixed with the self context's namespace, unless the self context has
no meaningful namespace, in which case the bare name is returned
unchanged. -/
def resolve_path (node_ns node_fqn : String) (path : String) : String :=
  if path = "" then node_fqn
  else if beginsWithSlash path then path
  else if node_ns = "" then path
  else node_ns ++ "/" ++ path

/-- Modelled from the spec: the body of the boolean overload of
`ParameterEventsSubscriber::get_parameter_from_event` (header lines
158-164) is not in the repository.  Spec §4.3: if the event's owner
matches, scan new-parameters, then changed-parameters, then
deleted-parameters for the first record with the requested name;
new/changed records yield the carried value, a deleted record yields the
"unset" sentinel (`PARAMETER_NOT_SET`); no match at all yields "absent".
`some p` models the C++ returning `true` with `p` assigned to the output
parameter; `none` models returning `false`. -/
def get_parameter_from_event (event : ParameterEvent)
    (parameter_name node_name : String) : Option Parameter :=
  if event.node = node_name then
    match findByName parameter_name event.new_parameters with
    | some p => some p
    | none =>
      match findByName parameter_name event.changed_parameters with
      | some p => some p
      | none =>
        match findByName parameter_name event.deleted_parameters with
        | some _ => some { name := parameter_name, value := ParameterValue.notSet }
        | none => none
  else none

/-- Modelled from the spec: the body of the value-returning overload of
`get_parameter_from_event` (header lines 179-184) is not in the
repository.  Header doc: "if the requested parameter is not found in the
event, the returned parameter has parameter value of type
rclcpp::PARAMETER_NOT_SET". -/
def get_parameter_from_event_value (event : ParameterEvent)
    (parameter_name node_name : String) : Parameter :=
  (get_parameter_from_event event parameter_name node_name).getD
    { name := parameter_name, value := ParameterValue.notSet }

/-- An `rmw` quality-of-service profile, treated as an opaque external
value (an external collaborator per the spec). -/
structure RmwQoSProfile where
  tag : String
deriving DecidableEq

/-- The external `rmw_qos_profile_parameter_events` profile. -/
def rmw_qos_profile_parameter_events : RmwQoSProfile :=
  { tag := "rmw_qos_profile_parameter_events" }

/-- An `rclcpp::QoS` value, identified by the rmw profile it was built
from (`rclcpp::QoSInitialization::from_rmw`). -/
structure QoS where
  rmwProfile : RmwQoSProfile
deriving DecidableEq

/-- `rclcpp::QoS(rclcpp::QoSInitialization::from_rmw(p))`. -/
def QoS.from_rmw (p : RmwQoSProfile) : QoS :=
  { rmwProfile := p }

/-- The callback a subscription is bound to. -/
inductive BoundCallback where
  | eventCallbackEntryPoint
deriving DecidableEq

/-- The subscription created by the constructor: topic name, QoS, and the
callback it is bound to. -/
structure SubscriptionRecord where
  topic : String
  qos : QoS
  callback : BoundCallback
deriving DecidableEq

/-- The constructor body, translated from the header (lines 64-77): for
any node argument it creates a subscription on the fixed topic
`"/parameter_events"` with the caller-supplied QoS, bound by `std::bind`
to `ParameterEventsSubscriber::event_callback`.  The node argument is
used only to obtain the node interfaces, never to choose the topic. -/
def subscriber_construct (_node : String) (qos : QoS) : SubscriptionRecord :=
  { topic := "/parameter_events", qos := qos,
    callback := BoundCallback.eventCallbackEntryPoint }

/-- The constructor's default QoS argument, translated from the header
(lines 67-68):
`rclcpp::QoS(rclcpp::QoSInitialization::from_rmw(rmw_qos_profile_parameter_events))`. -/
def subscriber_construct_default (node : String) : SubscriptionRecord :=
  subscriber_construct node (QoS.from_rmw rmw_qos_profile_parameter_events)

/-- The key of `parameter_callbacks_` (header lines 224-228):
`std::pair<std::string, std::string>` of (parameter name, resolved node
name).  Translated from the header. -/
structure RegistryKey where
  first : String
  second : String
deriving DecidableEq

/-- `std::pair` equality as used by the `std::unordered_map`
(`std::equal_to<std::pair<std::string, std::string>>`): componentwise,
order-sensitive string equality.  Translated from the header's choice of
key type. -/
def registryKeyEq (a b : RegistryKey) : Bool :=
  a.first == b.first && a.second == b.second

/-- A registry entry: a `WeakPtr` to a caller-held callback handle.
`id` is the handle's identity (the pointer in the C++); `alive` models
whether `lock()` still succeeds, i.e. whether the caller still holds the
handle. -/
structure CallbackRecord where
  id : Nat
  alive : Bool
deriving DecidableEq

/-- A `ParameterCallbackHandle` (header lines 39-48): the caller-held
handle carrying the parameter name and the resolved node name, by which
`remove_parameter_callback` recovers the registry key. -/
structure ParameterCallbackHandle where
  id : Nat
  parameter_name : String
  node_name : String
deriving DecidableEq

/-- A `ParameterEventCallbackHandle` (header lines 50-58). -/
structure ParameterEventCallbackHandle where
  id : Nat
deriving DecidableEq

/-- The per-parameter table `parameter_callbacks_`, modelled as an
association list in key-first-registration order; each key maps to the
`CallbacksContainerType` list of weak records in registration order. -/
abbrev RegistryTable := List (RegistryKey × List CallbackRecord)

/-- The mutable state of a `ParameterEventsSubscriber`: the node context
used by `resolve_path`, the fresh-handle counter, the per-parameter table
and the whole-event list `event_callbacks_`. -/
structure ParameterEventsSubscriber where
  node_ns : String
  node_fqn : String
  next_id : Nat
  parameter_callbacks : RegistryTable
  event_callbacks : List CallbackRecord
deriving DecidableEq

/-- `std::unordered_map::find` on the per-parameter table. -/
def lookupKey (k : RegistryKey) : RegistryTable → Option (List CallbackRecord)
  | [] => none
  | (k', rs) :: rest => if registryKeyEq k' k then some rs else lookupKey k rest

/-- `std::unordered_map::erase(key)`: removes the entry (entries) whose
key equals `k`. -/
def eraseKey (k : RegistryKey) (t : RegistryTable) : RegistryTable :=
  t.filter (fun e => !registryKeyEq e.1 k)

/-- Replaces the list stored under key `k`. -/
def setKey (k : RegistryKey) (v : List CallbackRecord) : RegistryTable → RegistryTable
  | [] => []
  | (k', rs) :: rest =>
    if registryKeyEq k' k then (k', v) :: rest else (k', rs) :: setKey k v rest

/-- Appends a record under key `k`, creating the key's entry (at the end,
preserving key-first-registration order) if absent. -/
def insertRegistration (k : RegistryKey) (r : CallbackRecord) : RegistryTable → RegistryTable
  | [] => [(k, [r])]
  | (k', rs) :: rest =>
    if registryKeyEq k' k then (k', rs ++ [r]) :: rest
    else (k', rs) :: insertRegistration k r rest

/-- Removes the first live record with identity `id`; `none` when no live
record matches (the `NotFound` case). -/
def removeFirstLive (id : Nat) : List CallbackRecord → Option (List CallbackRecord)
  | [] => none
  | r :: rest =>
    if r.alive && r.id == id then some rest
    else
      match removeFirstLive id rest with
      | some rest' => some (r :: rest')
      | none => none

/-- The error taxonomy of the registry's removal operations. -/
inductive RegistryError where
  | notFound
deriving DecidableEq

/-- Modelled from the spec: the body of
`ParameterEventsSubscriber::add_parameter_event_callback` (declared at
header lines 89-92) is not in the repository.  Spec §4.2: appends to the
whole-event list; always succeeds; returns a new handle. -/
def add_parameter_event_callback (s : ParameterEventsSubscriber) :
    ParameterEventsSubscriber × ParameterEventCallbackHandle :=
  ({ s with
      event_callbacks := s.event_callbacks ++ [{ id := s.next_id, alive := true }],
      next_id := s.next_id + 1 },
   { id := s.next_id })

/-- Modelled from the spec: the body of
`ParameterEventsSubscriber::remove_parameter_event_callback` (header
lines 98-101) is not in the repository.  Spec §4.2: scans the whole-event
list for a live entry matching the handle by identity and erases it;
signals `NotFound` when none matches. -/
def remove_parameter_event_callback (s : ParameterEventsSubscriber)
    (handle : ParameterEventCallbackHandle) :
    Except RegistryError ParameterEventsSubscriber :=
  match removeFirstLive handle.id s.event_callbacks with
  | some l => Except.ok { s with event_callbacks := l }
  | none => Except.error RegistryError.notFound

/-- Modelled from the spec: the body of
`ParameterEventsSubscriber::add_parameter_callback` (header lines
113-118) is not in the repository.  Spec §4.2: resolves the owner name
with the registry's own node context as self, builds the key, appends a
new registration to that key's list (creating the list if absent) and
returns the handle, which carries the name and resolved owner. -/
def add_parameter_callback (s : ParameterEventsSubscriber)
    (parameter_name node_name : String) :
    ParameterEventsSubscriber × ParameterCallbackHandle :=
  let resolved := resolve_path s.node_ns s.node_fqn node_name
  let key : RegistryKey := { first := parameter_name, second := resolved }
  ({ s with
      parameter_callbacks :=
        insertRegistration key { id := s.next_id, alive := true } s.parameter_callbacks,
      next_id := s.next_id + 1 },
   { id := s.next_id, parameter_name := parameter_name, node_name := resolved })

/-- Modelled from the spec: the body of the by-handle
`ParameterEventsSubscriber::remove_parameter_callback` (header lines
128-131) is not in the repository.  Spec §4.2 and header doc: the key is
recovered from the handle's own name/owner fields; the handle is erased
from that key's list; an emptied list removes the key entry; `NotFound`
when the handle is unknown or already removed. -/
def remove_parameter_callback_handle (s : ParameterEventsSubscriber)
    (handle : ParameterCallbackHandle) :
    Except RegistryError ParameterEventsSubscriber :=
  match lookupKey { first := handle.parameter_name, second := handle.node_name }
      s.parameter_callbacks with
  | none => Except.error RegistryError.notFound
  | some rs =>
    match removeFirstLive handle.id rs with
    | none => Except.error RegistryError.notFound
    | some rs' =>
      Except.ok { s with
        parameter_callbacks :=
          if rs'.isEmpty then
            eraseKey { first := handle.parameter_name, second := handle.node_name }
              s.parameter_callbacks
          else
            setKey { first := handle.parameter_name, second := handle.node_name } rs'
              s.parameter_callbacks }

/-- Modelled from the spec: the body of the by-key
`ParameterEventsSubscriber::remove_parameter_callback` (header lines
142-146) is not in the repository.  Spec §4.2: resolves the key and
erases all registrations under that exact key in one step; signals
`NotFound` if the key has no entries. -/
def remove_parameter_callback_name (s : ParameterEventsSubscriber)
    (parameter_name node_name : String) :
    Except RegistryError ParameterEventsSubscriber :=
  match lookupKey
      { first := parameter_name, second := resolve_path s.node_ns s.node_fqn node_name }
      s.parameter_callbacks with
  | none => Except.error RegistryError.notFound
  | some _ =>
    Except.ok { s with
      parameter_callbacks :=
        eraseKey
          { first := parameter_name, second := resolve_path s.node_ns s.node_fqn node_name }
          s.parameter_callbacks }

/-- The caller dropping its last `SharedPtr` to a parameter-callback
handle: every registry record with that identity becomes stale (its
`WeakPtr::lock()` now fails).  No registry operation is invoked. -/
def destroy_parameter_handle (s : ParameterEventsSubscriber) (id : Nat) :
    ParameterEventsSubscriber :=
  { s with
    parameter_callbacks := s.parameter_callbacks.map (fun e =>
      (e.1, e.2.map (fun r => if r.id = id then { r with alive := false } else r))) }

/-- The caller dropping its last `SharedPtr` to a whole-event handle. -/
def destroy_event_handle (s : ParameterEventsSubscriber) (id : Nat) :
    ParameterEventsSubscriber :=
  { s with
    event_callbacks := s.event_callbacks.map (fun r =>
      if r.id = id then { r with alive := false } else r) }

/-- One observable callback invocation during a dispatch: which handle
fired and with what argument. -/
inductive Invocation where
  | wholeEvent (id : Nat) (event : ParameterEvent)
  | perParameter (id : Nat) (parameter : Parameter)
deriving DecidableEq

/-- Step 1 of the dispatch algorithm, over the raw whole-event list: the
whole-event callbacks of live registrations, in registration order. -/
def wholeEventInvocationsOf (l : List CallbackRecord) (event : ParameterEvent) :
    List Invocation :=
  (l.filter (fun r => r.alive)).map (fun r => Invocation.wholeEvent r.id event)

/-- Step 1 of the dispatch algorithm for a subscriber state. -/
def wholeEventInvocations (s : ParameterEventsSubscriber) (event : ParameterEvent) :
    List Invocation :=
  wholeEventInvocationsOf s.event_callbacks event

/-- The per-parameter invocations of a single table entry: run the event
matcher on the entry's key; on a non-absent result invoke every live
registration under the key, in registration order. -/
def entryInvocations (event : ParameterEvent) (e : RegistryKey × List CallbackRecord) :
    List Invocation :=
  match get_parameter_from_event event e.1.first e.1.second with
  | some p => (e.2.filter (fun r => r.alive)).map (fun r => Invocation.perParameter r.id p)
  | none => []

/-- Step 2 of the dispatch algorithm, over the raw table: entries fire in
key-first-registration order. -/
def perParameterInvocationsOf (t : RegistryTable) (event : ParameterEvent) :
    List Invocation :=
  t.flatMap (entryInvocations event)

/-- Step 2 of the dispatch algorithm for a subscriber state. -/
def perParameterInvocations (s : ParameterEventsSubscriber) (event : ParameterEvent) :
    List Invocation :=
  perParameterInvocationsOf s.parameter_callbacks event

/-- Step 3 of the dispatch algorithm: stale entries found during the pass
are pruned; a key whose list empties is removed. -/
def pruneStale (s : ParameterEventsSubscriber) : ParameterEventsSubscriber :=
  { s with
    event_callbacks := s.event_callbacks.filter (fun r => r.alive),
    parameter_callbacks :=
      ((s.parameter_callbacks.map (fun e => (e.1, e.2.filter (fun r => r.alive)))).filter
        (fun e => !e.2.isEmpty)) }

/-- Modelled from the spec: the body of
`ParameterEventsSubscriber::event_callback` (header lines 190-191) is not
in the repository.  Spec §4.4: invoke all whole-event callbacks first, in
registration order; then, for each key, invoke the matching per-parameter
callbacks; prune stale entries before returning.  The returned list is
the ordered trace of callback invocations. -/
def event_callback (s : ParameterEventsSubscriber) (event : ParameterEvent) :
    List Invocation × ParameterEventsSubscriber :=
  (wholeEventInvocations s event ++ perParameterInvocations s event, pruneStale s)

/-- Whether an invocation is a whole-event invocation. -/
def Invocation.isWholeEvent : Invocation → Bool
  | Invocation.wholeEvent _ _ => true
  | Invocation.perParameter _ _ => false

/-- A freshly constructed subscriber with the given node context: empty
registries, fresh-handle counter at zero. -/
def mkSubscriber (ns fqn : String) : ParameterEventsSubscriber :=
  { node_ns := ns, node_fqn := fqn, next_id := 0,
    parameter_callbacks := [], event_callbacks := [] }

/-- Scenario state for the ordering claim: whole-event callbacks `E1`
(handle 0) and `E2` (handle 1) registered in that order, then one
per-parameter callback `P1` (handle 2) on parameter `"p"` of the
subscriber's own node `"/node"`. -/
def orderingScenarioState : ParameterEventsSubscriber :=
  (add_parameter_callback
    (add_parameter_event_callback
      (add_parameter_event_callback (mkSubscriber "" "/node")).1).1
    "p" "").1

/-- The event matching `P1` in the ordering scenario. -/
def orderingScenarioEvent : ParameterEvent :=
  { node := "/node", new_parameters := [],
    changed_parameters := [{ name := "p", value := ParameterValue.doubleVal 7 2 }],
    deleted_parameters := [] }

/-- Scenario state for the key-isolation claim: one callback (handle 0)
registered by `add_parameter_callback("speed", cb, "robot1")`. -/
def isolationScenarioState : ParameterEventsSubscriber :=
  (add_parameter_callback (mkSubscriber "" "/node") "speed" "robot1").1

/-- First isolation-scenario event: owner `"robot1"`, changed parameter
`("speed", 3.5)`. -/
def isolationScenarioEvent1 : ParameterEvent :=
  { node := "robot1", new_parameters := [],
    changed_parameters := [{ name := "speed", value := ParameterValue.doubleVal 7 2 }],
    deleted_parameters := [] }

/-- Second isolation-scenario event: owner `"robot2"`, changed parameter
`("speed", 9.0)`. -/
def isolationScenarioEvent2 : ParameterEvent :=
  { node := "robot2", new_parameters := [],
    changed_parameters := [{ name := "speed", value := ParameterValue.doubleVal 9 1 }],
    deleted_parameters := [] }

/-- An event in which owner `"/n"` deletes parameter `"p"` (the deleted
record's carried value is ignored by the matcher). -/
def matcherDeletedEvent : ParameterEvent :=
  { node := "/n", new_parameters := [], changed_parameters := [],
    deleted_parameters := [{ name := "p", value := ParameterValue.intVal 5 }] }

/-- An event that never mentions parameter `"p"`. -/
def matcherAbsentEvent : ParameterEvent :=
  { node := "/n", new_parameters := [], changed_parameters := [],
    deleted_parameters := [] }

/-- Scenario state for the removal claim: one per-parameter callback
(handle 0) registered on `"p"` of the subscriber's own node. -/
def removalScenarioState : ParameterEventsSubscriber :=
  (add_parameter_callback (mkSubscriber "" "/node") "p" "").1

/-- The handle returned by the registration of the removal scenario. -/
def removalScenarioHandle : ParameterCallbackHandle :=
  (add_parameter_callback (mkSubscriber "" "/node") "p" "").2

/-- The removal-scenario state after the handle has been removed: both
registries empty again. -/
def removalRemovedState : ParameterEventsSubscriber :=
  { node_ns := "", node_fqn := "/node", next_id := 1,
    parameter_callbacks := [], event_callbacks := [] }

/-- Scenario state with two registrations (handles 0 and 1) under the
same key `("p", "/node")`, for the bulk removal form. -/
def bulkScenarioState : ParameterEventsSubscriber :=
  (add_parameter_callback (add_parameter_callback (mkSubscriber "" "/node") "p" "").1 "p" "").1

instance {ε α : Type} [DecidableEq ε] [DecidableEq α] : DecidableEq (Except ε α) :=
  fun a b =>
    match a, b with
    | Except.error x, Except.error y =>
      if h : x = y then isTrue (by rw [h])
      else isFalse (by intro hc; cases hc; exact h rfl)
    | Except.error _, Except.ok _ => isFalse (by intro hc; cases hc)
    | Except.ok _, Except.error _ => isFalse (by intro hc; cases hc)
    | Except.ok x, Except.ok y =>
      if h : x = y then isTrue (by rw [h])
      else isFalse (by intro hc; cases hc; exact h rfl)

lemma mem_wholeEventInvocationsOf {l : List CallbackRecord} {e : ParameterEvent}
    {i : Invocation} (hi : i ∈ wholeEventInvocationsOf l e) :
    Invocation.isWholeEvent i = true := by
  simp only [wholeEventInvocationsOf, List.mem_map] at hi
  obtain ⟨r, _, rfl⟩ := hi
  rfl

lemma mem_perParameterInvocationsOf {t : RegistryTable} {e : ParameterEvent}
    {i : Invocation} (hi : i ∈ perParameterInvocationsOf t e) :
    Invocation.isWholeEvent i = false := by
  simp only [perParameterInvocationsOf, List.mem_flatMap] at hi
  obtain ⟨entry, _, hi⟩ := hi
  unfold entryInvocations at hi
  cases h : get_parameter_from_event e entry.1.first entry.1.second with
  | none => rw [h] at hi; simp at hi
  | some p =>
    rw [h] at hi
    simp only [List.mem_map] at hi
    obtain ⟨r, _, rfl⟩ := hi
    rfl

/-- C1: for every dispatched event the invocation trace splits as all
whole-event invocations followed by all per-parameter invocations; and in
the concrete scenario with whole-event callbacks `E1` (registered first,
handle 0) and `E2` (handle 1) and one matching per-parameter callback
`P1` (handle 2), a single event invokes exactly `E1`, then `E2`, then
`P1`. -/
theorem whole_event_callbacks_fire_before_per_parameter :
    (∀ (s : ParameterEventsSubscriber) (e : ParameterEvent),
      ∃ ws ps, (event_callback s e).1 = ws ++ ps ∧
        (∀ i ∈ ws, Invocation.isWholeEvent i = true) ∧
        (∀ i ∈ ps, Invocation.isWholeEvent i = false)) ∧
    (event_callback orderingScenarioState orderingScenarioEvent).1 =
      [Invocation.wholeEvent 0 orderingScenarioEvent,
       Invocation.wholeEvent 1 orderingScenarioEvent,
       Invocation.perParameter 2 { name := "p", value := ParameterValue.doubleVal 7 2 }] := by
  constructor
  · intro s e
    refine ⟨wholeEventInvocations s e, perParameterInvocations s e, rfl, ?_, ?_⟩
    · intro i hi
      exact mem_wholeEventInvocationsOf hi
    · intro i hi
      exact mem_perParameterInvocationsOf hi
  · decide

/-- Witness for the ordering claim: the trace split, instantiated at the
concrete ordering scenario. -/
theorem whole_event_callbacks_fire_before_per_parameter_witness :
    ∃ ws ps,
      (event_callback orderingScenarioState orderingScenarioEvent).1 = ws ++ ps ∧
      (∀ i ∈ ws, Invocation.isWholeEvent i = true) ∧
      (∀ i ∈ ps, Invocation.isWholeEvent i = false) :=
  whole_event_callbacks_fire_before_per_parameter.1 orderingScenarioState orderingScenarioEvent

lemma get_parameter_from_event_of_node_ne {e : ParameterEvent}
    {parameter_name node_name : String} (h : e.node ≠ node_name) :
    get_parameter_from_event e parameter_name node_name = none := by
  simp [get_parameter_from_event, h]

lemma perParameterInvocationsOf_eq_nil {t : RegistryTable} {e : ParameterEvent}
    (h : ∀ entry ∈ t, entry.1.second ≠ e.node) :
    perParameterInvocationsOf t e = [] := by
  induction t with
  | nil => rfl
  | cons entry rest ih =>
    have h1 : entry.1.second ≠ e.node := h entry (List.mem_cons_self entry rest)
    have h2 : entryInvocations e entry = [] := by
      unfold entryInvocations
      rw [get_parameter_from_event_of_node_ne (fun hn => h1 hn.symm)]
    simp only [perParameterInvocationsOf, List.flatMap_cons, h2, List.nil_append]
    exact ih (fun x hx => h x (List.mem_cons_of_mem entry hx))

/-- C2: key isolation.  A per-parameter callback registered under an
owner different from the event's owner never fires: when no key in the
table has the event's owner, the dispatch produces no per-parameter
invocation at all.  Concretely, after
`add_parameter_callback("speed", cb, "robot1")`, an event from
`"robot1"` with changed parameter `("speed", 3.5)` invokes the callback
exactly once with 3.5, and a subsequent event from `"robot2"` with
changed parameter `("speed", 9.0)` invokes nothing. -/
theorem key_isolation :
    (∀ (s : ParameterEventsSubscriber) (e : ParameterEvent),
      (∀ entry ∈ s.parameter_callbacks, entry.1.second ≠ e.node) →
      perParameterInvocations s e = []) ∧
    (event_callback isolationScenarioState isolationScenarioEvent1).1 =
      [Invocation.perParameter 0 { name := "speed", value := ParameterValue.doubleVal 7 2 }] ∧
    (event_callback (event_callback isolationScenarioState isolationScenarioEvent1).2
      isolationScenarioEvent2).1 = [] := by
  refine ⟨?_, by decide, by decide⟩
  intro s e h
  exact perParameterInvocationsOf_eq_nil h

/-- Witness for key isolation: the general isolation statement applied to
the concrete scenario state and the `"robot2"` event, whose owner matches
no registered key. -/
theorem key_isolation_witness :
    perParameterInvocations isolationScenarioState isolationScenarioEvent2 = [] :=
  key_isolation.1 isolationScenarioState isolationScenarioEvent2 (by decide)

/-- C3: the matcher scans new-parameters, then changed-parameters, then
deleted-parameters, taking the first record whose name matches for the
event's owner; new/changed records yield the carried value, a deleted
record yields the `PARAMETER_NOT_SET` ("unset") sentinel while the
boolean form still reports a match (`some`), and an event that never
mentions the pair yields "absent" (`none`); through the value-returning
accessor both the deleted and the absent case produce a parameter whose
value is the not-set sentinel. -/
theorem event_matcher_scan_order_unset_vs_absent :
    (∀ (e : ParameterEvent) (pn nn : String) (p : Parameter),
      e.node = nn → findByName pn e.new_parameters = some p →
      get_parameter_from_event e pn nn = some p) ∧
    (∀ (e : ParameterEvent) (pn nn : String) (p : Parameter),
      e.node = nn → findByName pn e.new_parameters = none →
      findByName pn e.changed_parameters = some p →
      get_parameter_from_event e pn nn = some p) ∧
    (∀ (e : ParameterEvent) (pn nn : String) (p : Parameter),
      e.node = nn → findByName pn e.new_parameters = none →
      findByName pn e.changed_parameters = none →
      findByName pn e.deleted_parameters = some p →
      get_parameter_from_event e pn nn =
        some { name := pn, value := ParameterValue.notSet } ∧
      get_parameter_from_event_value e pn nn =
        { name := pn, value := ParameterValue.notSet }) ∧
    (∀ (e : ParameterEvent) (pn nn : String),
      (e.node ≠ nn ∨
        (findByName pn e.new_parameters = none ∧
         findByName pn e.changed_parameters = none ∧
         findByName pn e.deleted_parameters = none)) →
      get_parameter_from_event e pn nn = none ∧
      get_parameter_from_event_value e pn nn =
        { name := pn, value := ParameterValue.notSet }) := by
  refine ⟨?_, ?_, ?_, ?_⟩
  · intro e pn nn p hn hnew
    simp [get_parameter_from_event, hn, hnew]
  · intro e pn nn p hn hnew hch
    simp [get_parameter_from_event, hn, hnew, hch]
  · intro e pn nn p hn hnew hch hdel
    constructor
    · simp [get_parameter_from_event, hn, hnew, hch, hdel]
    · simp [get_parameter_from_event_value, get_parameter_from_event, hn, hnew, hch, hdel]
  · intro e pn nn h
    cases h with
    | inl hne =>
      constructor
      · simp [get_parameter_from_event, hne]
      · simp [get_parameter_from_event_value, get_parameter_from_event, hne]
    | inr habs =>
      obtain ⟨hnew, hch, hdel⟩ := habs
      by_cases hn : e.node = nn
      · constructor
        · simp [get_parameter_from_event, hn, hnew, hch, hdel]
        · simp [get_parameter_from_event_value, get_parameter_from_event, hn, hnew, hch, hdel]
      · constructor
        · simp [get_parameter_from_event, hn]
        · simp [get_parameter_from_event_value, get_parameter_from_event, hn]

/-- Witness for the matcher claim: a deleted record yields the unset
sentinel through both accessors (with the boolean form reporting a
match), while an event never mentioning the pair yields `none` through
the boolean form and the not-set default through the convenience form. -/
theorem event_matcher_scan_order_unset_vs_absent_witness :
    (get_parameter_from_event matcherDeletedEvent "p" "/n" =
        some { name := "p", value := ParameterValue.notSet } ∧
      get_parameter_from_event_value matcherDeletedEvent "p" "/n" =
        { name := "p", value := ParameterValue.notSet }) ∧
    (get_parameter_from_event matcherAbsentEvent "p" "/n" = none ∧
      get_parameter_from_event_value matcherAbsentEvent "p" "/n" =
        { name := "p", value := ParameterValue.notSet }) :=
  ⟨event_matcher_scan_order_unset_vs_absent.2.2.1 matcherDeletedEvent "p" "/n"
      { name := "p", value := ParameterValue.intVal 5 } rfl (by decide) (by decide) (by decide),
   event_matcher_scan_order_unset_vs_absent.2.2.2 matcherAbsentEvent "p" "/n"
      (Or.inr ⟨by decide, by decide, by decide⟩)⟩

lemma removeFirstLive_eq_none {id : Nat} {l : List CallbackRecord}
    (h : ∀ r ∈ l, ¬(r.alive = true ∧ r.id = id)) :
    removeFirstLive id l = none := by
  induction l with
  | nil => rfl
  | cons r rest ih =>
    have hr := h r (List.mem_cons_self r rest)
    have hc : (r.alive && r.id == id) = false := by
      cases ha : r.alive with
      | false => simp
      | true =>
        simp only [Bool.true_and, beq_eq_false_iff_ne, ne_eq]
        intro he
        exact hr ⟨ha, he⟩
    simp only [removeFirstLive, hc, Bool.false_eq_true, if_false]
    rw [ih (fun x hx => h x (List.mem_cons_of_mem r hx))]

lemma lookupKey_eq_some {k : RegistryKey} {t : RegistryTable} {rs : List CallbackRecord}
    (h : lookupKey k t = some rs) :
    ∃ k', (k', rs) ∈ t ∧ registryKeyEq k' k = true := by
  induction t with
  | nil => simp [lookupKey] at h
  | cons e rest ih =>
    by_cases hk : registryKeyEq e.1 k = true
    · rw [lookupKey, if_pos hk] at h
      cases h
      exact ⟨e.1, List.mem_cons_self e rest, hk⟩
    · rw [lookupKey, if_neg hk] at h
      obtain ⟨k', hmem, hkeq⟩ := ih h
      exact ⟨k', List.mem_cons_of_mem e hmem, hkeq⟩

/-- C4: every removal operation raises `NotFound` when no matching live
registration exists — `remove_parameter_event_callback` by handle,
`remove_parameter_callback` by handle, and `remove_parameter_callback`
by (parameter name, owner name) key; removal of an unknown or
already-removed registration is an explicit error, not a silent no-op. -/
theorem removal_of_unknown_registration_raises_not_found :
    (∀ (s : ParameterEventsSubscriber) (h : ParameterEventCallbackHandle),
      (∀ r ∈ s.event_callbacks, ¬(r.alive = true ∧ r.id = h.id)) →
      remove_parameter_event_callback s h = Except.error RegistryError.notFound) ∧
    (∀ (s : ParameterEventsSubscriber) (h : ParameterCallbackHandle),
      (∀ entry ∈ s.parameter_callbacks,
        registryKeyEq entry.1 { first := h.parameter_name, second := h.node_name } = true →
        ∀ r ∈ entry.2, ¬(r.alive = true ∧ r.id = h.id)) →
      remove_parameter_callback_handle s h = Except.error RegistryError.notFound) ∧
    (∀ (s : ParameterEventsSubscriber) (pn nn : String),
      lookupKey { first := pn, second := resolve_path s.node_ns s.node_fqn nn }
        s.parameter_callbacks = none →
      remove_parameter_callback_name s pn nn = Except.error RegistryError.notFound) := by
  refine ⟨?_, ?_, ?_⟩
  · intro s h hnone
    unfold remove_parameter_event_callback
    rw [removeFirstLive_eq_none hnone]
  · intro s h hnone
    unfold remove_parameter_callback_handle
    cases hl : lookupKey { first := h.parameter_name, second := h.node_name }
        s.parameter_callbacks with
    | none => rfl
    | some rs =>
      obtain ⟨k', hmem, hkeq⟩ := lookupKey_eq_some hl
      have hn2 : ∀ r ∈ rs, ¬(r.alive = true ∧ r.id = h.id) := hnone (k', rs) hmem hkeq
      simp only [removeFirstLive_eq_none hn2]
  · intro s pn nn hl
    unfold remove_parameter_callback_name
    rw [hl]

/-- Witness for the `NotFound` claim: on a freshly constructed subscriber
(no registrations at all), each of the three removal operations signals
`NotFound`. -/
theorem removal_of_unknown_registration_raises_not_found_witness :
    remove_parameter_event_callback (mkSubscriber "" "/node") { id := 0 } =
      Except.error RegistryError.notFound ∧
    remove_parameter_callback_handle (mkSubscriber "" "/node")
      { id := 0, parameter_name := "p", node_name := "/node" } =
      Except.error RegistryError.notFound ∧
    remove_parameter_callback_name (mkSubscriber "" "/node") "p" "" =
      Except.error RegistryError.notFound :=
  ⟨removal_of_unknown_registration_raises_not_found.1 (mkSubscriber "" "/node")
      { id := 0 } (by simp [mkSubscriber]),
   removal_of_unknown_registration_raises_not_found.2.1 (mkSubscriber "" "/node")
      { id := 0, parameter_name := "p", node_name := "/node" } (by simp [mkSubscriber]),
   removal_of_unknown_registration_raises_not_found.2.2 (mkSubscriber "" "/node")
      "p" "" (by decide)⟩

lemma lookupKey_eraseKey (k : RegistryKey) (t : RegistryTable) :
    lookupKey k (eraseKey k t) = none := by
  induction t with
  | nil => rfl
  | cons e rest ih =>
    by_cases hk : registryKeyEq e.1 k = true
    · simpa [eraseKey, List.filter_cons, hk] using ih
    · simpa [eraseKey, List.filter_cons, hk, lookupKey] using ih

/-- C5: after a per-parameter registration is removed, no event invokes
any callback for it.  The bulk
`remove_parameter_callback(parameter_name, owner_name)` form erases all
registrations under the resolved key in one step (afterwards the key is
no longer in the table); removing a handle and then delivering any event
invokes zero callbacks; and removing the same handle a second time raises
`NotFound`. -/
theorem removal_correctness :
    (∀ (s s' : ParameterEventsSubscriber) (pn nn : String),
      remove_parameter_callback_name s pn nn = Except.ok s' →
      lookupKey { first := pn, second := resolve_path s.node_ns s.node_fqn nn }
        s'.parameter_callbacks = none) ∧
    remove_parameter_callback_handle removalScenarioState removalScenarioHandle =
      Except.ok removalRemovedState ∧
    (∀ e, (event_callback removalRemovedState e).1 = []) ∧
    remove_parameter_callback_handle removalRemovedState removalScenarioHandle =
      Except.error RegistryError.notFound := by
  refine ⟨?_, by decide, fun e => rfl, by decide⟩
  intro s s' pn nn h
  unfold remove_parameter_callback_name at h
  cases hl : lookupKey { first := pn, second := resolve_path s.node_ns s.node_fqn nn }
      s.parameter_callbacks with
  | none => rw [hl] at h; cases h
  | some rs =>
    rw [hl] at h
    cases h
    exact lookupKey_eraseKey _ _

/-- Witness for the removal claim: on the two-registration bulk scenario,
the bulk removal succeeds and the general part of the theorem shows the
key is gone from the resulting table. -/
theorem removal_correctness_witness :
    lookupKey
      { first := "p",
        second := resolve_path bulkScenarioState.node_ns bulkScenarioState.node_fqn "" }
      ({ node_ns := "", node_fqn := "/node", next_id := 2,
         parameter_callbacks := [], event_callbacks := [] } :
        ParameterEventsSubscriber).parameter_callbacks = none :=
  removal_correctness.1 bulkScenarioState
    { node_ns := "", node_fqn := "/node", next_id := 2,
      parameter_callbacks := [], event_callbacks := [] } "p" "" (by decide)

lemma beginsWithSlash_ne_empty {s : String} (h : beginsWithSlash s = true) : s ≠ "" := by
  intro he
  rw [he] at h
  simp [beginsWithSlash] at h

lemma beginsWithSlash_append {a : String} (b : String) (h : beginsWithSlash a = true) :
    beginsWithSlash (a ++ b) = true := by
  unfold beginsWithSlash at h ⊢
  rw [String.data_append]
  cases ha : a.data with
  | nil => rw [ha] at h; simp at h
  | cons c cs =>
    rw [ha] at h
    simpa using h

lemma resolve_path_canonical_unchanged (ns fqn x : String)
    (hx : beginsWithSlash x = true) : resolve_path ns fqn x = x := by
  rw [resolve_path, if_neg (beginsWithSlash_ne_empty hx), if_pos hx]

lemma resolve_path_idem (ns fqn x : String) (hfqn : beginsWithSlash fqn = true)
    (hns : ns = "" ∨ beginsWithSlash ns = true) :
    resolve_path ns fqn (resolve_path ns fqn x) = resolve_path ns fqn x := by
  by_cases hx0 : x = ""
  · subst hx0
    have h1 : resolve_path ns fqn "" = fqn := by rw [resolve_path, if_pos rfl]
    rw [h1]
    exact resolve_path_canonical_unchanged ns fqn fqn hfqn
  · by_cases hxs : beginsWithSlash x = true
    · rw [resolve_path_canonical_unchanged ns fqn x hxs]
      exact resolve_path_canonical_unchanged ns fqn x hxs
    · cases hns with
      | inl h0 =>
        subst h0
        have hr : resolve_path "" fqn x = x := by
          rw [resolve_path, if_neg hx0, if_neg hxs, if_pos rfl]
        rw [hr]
        exact hr
      | inr hs =>
        have hr : resolve_path ns fqn x = ns ++ "/" ++ x := by
          rw [resolve_path, if_neg hx0, if_neg hxs, if_neg (beginsWithSlash_ne_empty hs)]
        have hcanon : beginsWithSlash (ns ++ "/" ++ x) = true :=
          beginsWithSlash_append x (beginsWithSlash_append "/" hs)
        rw [hr]
        exact resolve_path_canonical_unchanged ns fqn (ns ++ "/" ++ x) hcanon

/-- C6: name resolution is idempotent — for every name `x` and every self
context whose fully-qualified node name and namespace are canonical
(begin with the separator; an empty namespace counts as "no meaningful
namespace"), `resolve(resolve(x, self), self) = resolve(x, self)`; and
resolving an already-canonical name returns it unchanged. -/
theorem resolution_idempotence :
    (∀ (ns fqn x : String), beginsWithSlash fqn = true →
      (ns = "" ∨ beginsWithSlash ns = true) →
      resolve_path ns fqn (resolve_path ns fqn x) = resolve_path ns fqn x) ∧
    (∀ (ns fqn x : String), beginsWithSlash x = true → resolve_path ns fqn x = x) :=
  ⟨fun ns fqn x hfqn hns => resolve_path_idem ns fqn x hfqn hns,
   fun ns fqn x hx => resolve_path_canonical_unchanged ns fqn x hx⟩

/-- Witness for resolution idempotence: concrete node context
`/ns/node` in namespace `/ns`, with a relative name and a canonical
name. -/
theorem resolution_idempotence_witness :
    resolve_path "/ns" "/ns/node" (resolve_path "/ns" "/ns/node" "p") =
      resolve_path "/ns" "/ns/node" "p" ∧
    resolve_path "/ns" "/ns/node" "/other" = "/other" :=
  ⟨resolution_idempotence.1 "/ns" "/ns/node" "p" (by decide) (Or.inr (by decide)),
   resolution_idempotence.2 "/ns" "/ns/node" "/other" (by decide)⟩

/-- C7: every call to `add_parameter_event_callback` appends a new
registration to the whole-event list and succeeds with a new handle;
earlier whole-event registrations remain in place, so on the next event
all previously firing whole-event callbacks still fire, followed by the
new one, and the per-parameter invocations are unaffected. -/
theorem add_parameter_event_callback_appends_and_all_fire :
    ∀ (s : ParameterEventsSubscriber) (e : ParameterEvent),
      (add_parameter_event_callback s).1.event_callbacks =
        s.event_callbacks ++ [{ id := s.next_id, alive := true }] ∧
      (add_parameter_event_callback s).2 = { id := s.next_id } ∧
      wholeEventInvocations (add_parameter_event_callback s).1 e =
        wholeEventInvocations s e ++ [Invocation.wholeEvent s.next_id e] ∧
      perParameterInvocations (add_parameter_event_callback s).1 e =
        perParameterInvocations s e := by
  intro s e
  refine ⟨rfl, rfl, ?_, rfl⟩
  simp [wholeEventInvocations, wholeEventInvocationsOf, add_parameter_event_callback,
    List.filter_append]

lemma destroyRecord_alive {id : Nat} {r0 : CallbackRecord}
    (h : (if r0.id = id then { r0 with alive := false } else r0).alive = true) :
    r0.id ≠ id ∧ (if r0.id = id then { r0 with alive := false } else r0) = r0 := by
  by_cases hid : r0.id = id
  · rw [if_pos hid] at h
    cases h
  · exact ⟨hid, if_neg hid⟩

lemma mem_filter_alive_destroy {id : Nat} {rs : List CallbackRecord} {r : CallbackRecord}
    (hr : r ∈ (rs.map (fun r => if r.id = id then { r with alive := false } else r)).filter
      (fun r => r.alive)) :
    r.id ≠ id := by
  simp only [List.mem_filter, List.mem_map] at hr
  obtain ⟨⟨r0, _, heq⟩, halive⟩ := hr
  subst heq
  obtain ⟨hid, heq2⟩ := destroyRecord_alive halive
  rw [heq2]
  exact hid

/-- C9: when the caller-held handle backing a registration is destroyed
without an explicit remove call, that registration's callback is never
invoked by a subsequent dispatch, and after the dispatch completes the
registry no longer holds the stale registration — for per-parameter
registrations and for whole-event registrations alike. -/
theorem destroyed_handle_never_fires_and_is_pruned :
    ∀ (s : ParameterEventsSubscriber) (id : Nat) (e : ParameterEvent),
      (∀ p, Invocation.perParameter id p ∉
        (event_callback (destroy_parameter_handle s id) e).1) ∧
      (∀ entry ∈ (event_callback (destroy_parameter_handle s id) e).2.parameter_callbacks,
        ∀ r ∈ entry.2, r.id ≠ id) ∧
      Invocation.wholeEvent id e ∉ (event_callback (destroy_event_handle s id) e).1 ∧
      (∀ r ∈ (event_callback (destroy_event_handle s id) e).2.event_callbacks,
        r.id ≠ id) := by
  intro s id e
  refine ⟨?_, ?_, ?_, ?_⟩
  · intro p hp
    rcases List.mem_append.mp hp with hw | hpp
    · have hwe := mem_wholeEventInvocationsOf hw
      simp [Invocation.isWholeEvent] at hwe
    · simp only [perParameterInvocations, perParameterInvocationsOf, List.mem_flatMap] at hpp
      obtain ⟨entry, hentry, hinv⟩ := hpp
      unfold entryInvocations at hinv
      cases hm : get_parameter_from_event e entry.1.first entry.1.second with
      | none => rw [hm] at hinv; simp at hinv
      | some q =>
        rw [hm] at hinv
        simp only [List.mem_map] at hinv
        obtain ⟨r, hr, hinj⟩ := hinv
        have hid : r.id = id := by injection hinj
        simp only [destroy_parameter_handle, List.mem_map] at hentry
        obtain ⟨entry0, _, heq⟩ := hentry
        rw [← heq] at hr
        exact mem_filter_alive_destroy hr hid
  · intro entry hentry r hr
    simp only [event_callback, pruneStale, destroy_parameter_handle, List.mem_filter,
      List.mem_map] at hentry
    obtain ⟨⟨entry1, hentry1, heq1⟩, _⟩ := hentry
    obtain ⟨entry0, _, heq0⟩ := hentry1
    rw [← heq1] at hr
    rw [← heq0] at hr
    exact mem_filter_alive_destroy hr
  · intro hw
    rcases List.mem_append.mp hw with hww | hpp
    · simp only [wholeEventInvocations, wholeEventInvocationsOf, destroy_event_handle,
        List.mem_map] at hww
      obtain ⟨r, hr, hinj⟩ := hww
      have hid : r.id = id := by injection hinj
      exact mem_filter_alive_destroy hr hid
    · have hwe := mem_perParameterInvocationsOf hpp
      simp [Invocation.isWholeEvent] at hwe
  · intro r hr
    simp only [event_callback, pruneStale, destroy_event_handle] at hr
    exact mem_filter_alive_destroy hr

/-- Witness for the weak-handle claim: destroying handle 0 of the
one-registration isolation scenario means the matching event no longer
invokes it, and the post-dispatch registry holds no record with that
identity. -/
theorem destroyed_handle_never_fires_and_is_pruned_witness :
    (∀ p, Invocation.perParameter 0 p ∉
      (event_callback (destroy_parameter_handle isolationScenarioState 0)
        isolationScenarioEvent1).1) ∧
    (∀ entry ∈ (event_callback (destroy_parameter_handle isolationScenarioState 0)
        isolationScenarioEvent1).2.parameter_callbacks,
      ∀ r ∈ entry.2, r.id ≠ 0) :=
  ⟨(destroyed_handle_never_fires_and_is_pruned isolationScenarioState 0
      isolationScenarioEvent1).1,
   (destroyed_handle_never_fires_and_is_pruned isolationScenarioState 0
      isolationScenarioEvent1).2.1⟩

lemma registryKeyEq_iff (a b : RegistryKey) :
    registryKeyEq a b = true ↔ a.first = b.first ∧ a.second = b.second := by
  cases a
  cases b
  simp [registryKeyEq]

lemma registryKeyEq_iff_eq (a b : RegistryKey) : registryKeyEq a b = true ↔ a = b := by
  rw [registryKeyEq_iff]
  cases a
  cases b
  simp

lemma mem_map_fst_insertRegistration {x k : RegistryKey} {r : CallbackRecord}
    {t : RegistryTable} (hx : x ∈ (insertRegistration k r t).map Prod.fst) :
    x ∈ t.map Prod.fst ∨ x = k := by
  induction t with
  | nil => simpa [insertRegistration] using hx
  | cons e rest ih =>
    by_cases hk : registryKeyEq e.1 k = true
    · rw [insertRegistration, if_pos hk] at hx
      rw [List.map_cons, List.mem_cons] at hx ⊢
      exact Or.inl hx
    · rw [insertRegistration, if_neg hk] at hx
      rw [List.map_cons, List.mem_cons] at hx
      rcases hx with hx | hx
      · exact Or.inl (by simp [hx])
      · rcases ih hx with h | h
        · exact Or.inl (List.mem_cons_of_mem _ h)
        · exact Or.inr h

lemma nodup_insertRegistration {k : RegistryKey} {r : CallbackRecord} {t : RegistryTable}
    (h : (t.map Prod.fst).Nodup) : ((insertRegistration k r t).map Prod.fst).Nodup := by
  induction t with
  | nil => simp [insertRegistration]
  | cons e rest ih =>
    rw [List.map_cons, List.nodup_cons] at h
    by_cases hk : registryKeyEq e.1 k = true
    · rw [insertRegistration, if_pos hk, List.map_cons, List.nodup_cons]
      exact h
    · rw [insertRegistration, if_neg hk, List.map_cons, List.nodup_cons]
      refine ⟨?_, ih h.2⟩
      intro hmem
      rcases mem_map_fst_insertRegistration hmem with hin | heq
      · exact h.1 hin
      · exact hk ((registryKeyEq_iff_eq e.1 k).mpr heq)

lemma lookupKey_insertRegistration (k : RegistryKey) (r : CallbackRecord)
    {t : RegistryTable} {rs : List CallbackRecord} (h : lookupKey k t = some rs) :
    lookupKey k (insertRegistration k r t) = some (rs ++ [r]) := by
  induction t with
  | nil => simp [lookupKey] at h
  | cons e rest ih =>
    by_cases hk : registryKeyEq e.1 k = true
    · rw [lookupKey, if_pos hk] at h
      cases h
      rw [insertRegistration, if_pos hk, lookupKey, if_pos hk]
    · rw [lookupKey, if_neg hk] at h
      rw [insertRegistration, if_neg hk, lookupKey, if_neg hk]
      exact ih h

/-- Counterexample to the claim that the registry key is an unordered
pair: the key built from `("a", "b")` is not equal — and does not match
as a map key — to the key built from `("b", "a")`.  `std::pair`
equality, as used by the `std::unordered_map`, is order-sensitive. -/
theorem registry_key_not_unordered :
    registryKeyEq { first := "a", second := "b" } { first := "b", second := "a" } = false ∧
    lookupKey { first := "b", second := "a" }
      [({ first := "a", second := "b" }, [{ id := 0, alive := true }])] = none := by
  decide

/-- C8 (amended): the registry key is an ordered pair of strings whose
equality is exact string equality on both components; the key built from
`(p, o)` matches the key built from `(o, p)` exactly when `p = o`; key
uniqueness in the per-parameter table is preserved by registration, and a
key maps to an insertion-ordered list of registrations (a new
registration under an existing key is appended at the end). -/
theorem registry_key_ordered_pair_semantics :
    (∀ a b : RegistryKey,
      registryKeyEq a b = true ↔ a.first = b.first ∧ a.second = b.second) ∧
    (∀ p o : String,
      registryKeyEq { first := p, second := o } { first := o, second := p } = true ↔ p = o) ∧
    (∀ (s : ParameterEventsSubscriber) (pn nn : String),
      (s.parameter_callbacks.map Prod.fst).Nodup →
      ((add_parameter_callback s pn nn).1.parameter_callbacks.map Prod.fst).Nodup) ∧
    (∀ (k : RegistryKey) (r : CallbackRecord) (t : RegistryTable) (rs : List CallbackRecord),
      lookupKey k t = some rs → lookupKey k (insertRegistration k r t) = some (rs ++ [r])) := by
  refine ⟨registryKeyEq_iff, ?_, ?_, fun k r t rs h => lookupKey_insertRegistration k r h⟩
  · intro p o
    rw [registryKeyEq_iff]
    constructor
    · intro h
      exact h.1
    · intro h
      exact ⟨h, h.symm⟩
  · intro s pn nn h
    exact nodup_insertRegistration h

/-- Witness for the amended registry-key claim: keys with equal
components match; a duplicate-free table stays duplicate-free through a
registration; appending under an existing key extends its list. -/
theorem registry_key_ordered_pair_semantics_witness :
    (registryKeyEq { first := "a", second := "b" } { first := "a", second := "b" } = true ↔
      ("a" = "a" ∧ "b" = "b")) ∧
    (((add_parameter_callback (mkSubscriber "" "/node") "p" "").1.parameter_callbacks.map
        Prod.fst).Nodup) ∧
    lookupKey { first := "p", second := "/node" }
      (insertRegistration { first := "p", second := "/node" } { id := 1, alive := true }
        [({ first := "p", second := "/node" }, [{ id := 0, alive := true }])]) =
      some [{ id := 0, alive := true }, { id := 1, alive := true }] :=
  ⟨registry_key_ordered_pair_semantics.1
      { first := "a", second := "b" } { first := "a", second := "b" },
   registry_key_ordered_pair_semantics.2.2.1 (mkSubscriber "" "/node") "p" "" (by decide),
   registry_key_ordered_pair_semantics.2.2.2 { first := "p", second := "/node" }
      { id := 1, alive := true }
      [({ first := "p", second := "/node" }, [{ id := 0, alive := true }])]
      [{ id := 0, alive := true }] (by decide)⟩

/-- C10: for every node argument the constructor subscribes to the one
fixed topic `"/parameter_events"` (independent of the node and of the
QoS), binds the subscription to the `event_callback` dispatcher entry
point, passes the caller-supplied QoS through unmodified, and defaults to
the rmw parameter-events QoS profile when none is given. -/
theorem constructor_fixed_topic_and_qos_passthrough :
    ∀ (node other : String) (qos : QoS),
      (subscriber_construct node qos).topic = "/parameter_events" ∧
      (subscriber_construct node qos).topic = (subscriber_construct other qos).topic ∧
      (subscriber_construct node qos).qos = qos ∧
      (subscriber_construct node qos).callback = BoundCallback.eventCallbackEntryPoint ∧
      subscriber_construct_default node =
        subscriber_construct node (QoS.from_rmw rmw_qos_profile_parameter_events) :=
  fun _ _ _ => ⟨rfl, rfl, rfl, rfl, rfl⟩

end Rclcpp
